import Mathlib

/-!
Verification of the veraison/keybroker-demo key broker server.

This file gives a shallow embedding of the server-side attestation-gated
key-release pipeline of the Rust sources under
`rust-keybroker/keybroker-server/src/` (challenge.rs, keystore.rs, policy.rs,
verifier.rs, main.rs) and proves the frozen claims about it.

Modelling conventions:
- machine bytes and u32 ids are `Nat` values (with explicit `< 256` bounds
  where byte ranges matter; ids are only compared, never overflowed);
- the challenge `HashMap` is an association list used as a map (insert
  replaces, remove filters; lookup takes the first hit);
- fallible Rust code returning `Result` is embedded with `Except`;
- the outcomes of calls to external collaborators (the remote Veraison
  service, the `ear` JWT parser, the regorus policy engine, the RSA padding
  schemes of the `rsa` crate) are parameters of the embedded functions, and
  observable side effects (challenge deletion, diagnostics emission, policy
  evaluation, encryption) are recorded in explicit event lists;
- a Rust `unwrap()` on a failing value (a request-aborting panic) is the
  `panic` outcome of the embedded handler.
-/

/-! ## Common data types (keybroker-common/src/lib.rs) -/

/-- Public portion of the client-supplied RSA wrapping key pair. -/
structure PublicWrappingKey where
  kty : String
  alg : String
  n : String
  e : String
deriving DecidableEq, Repr

/-- Error body returned by the server handlers. -/
structure ErrorInformation where
  type : String
  detail : String
deriving DecidableEq, Repr

/-- Wrapped (encrypted) secret data, base64url-no-pad encoded. -/
structure WrappedKeyData where
  data : String
deriving DecidableEq, Repr

/-- Challenge response body of the key-request handler. -/
structure AttestationChallenge where
  challenge : String
  accept : List String
deriving DecidableEq, Repr

/-! ## Error taxonomy (keybroker-server/src/error.rs, plus the verification
error kinds referenced by verifier.rs) -/

/-- Errors related to the management of challenges. -/
inductive ChallengeErrorKind where
  | ChallengeNotFound
deriving DecidableEq, Repr

/-- Errors happening within the key store. -/
inductive KeyStoreErrorKind where
  | KeyNotFound
  | UnsupportedWrappingKeyType
  | UnsupportedWrappingKeyAlgorithm
deriving DecidableEq, Repr

/-- Errors happening within the verification process logic. -/
inductive VerificationErrorKind where
  | NoChallengeResponseEndpoint
  | PolicyNotFound
  | NoReferenceValues
  | EARCCAError (msg : String)
deriving DecidableEq, Repr

/-- Top-level error type for the whole of the key broker service. -/
inductive Error where
  | VeraisonApi (msg : String)
  | Ear (msg : String)
  | Verification (k : VerificationErrorKind)
  | Rsa
  | KeyStore (k : KeyStoreErrorKind)
  | Challenge (k : ChallengeErrorKind)
  | Base64Decode
  | Policy (msg : String)
  | Json (msg : String)
deriving DecidableEq, Repr

/-! ## Big-endian byte/integer conversion (rsa crate `BigUint::from_bytes_be`
and the byte rendering of ciphertexts) -/

/-- Interpret a big-endian byte list as a natural number. -/
def bytesToNatBE (bs : List Nat) : Nat := bs.foldl (fun acc b => acc * 256 + b) 0

/-- Fuel-driven big-endian byte rendering of a natural number. -/
def natToBytesBEAux : Nat → Nat → List Nat
  | 0, _ => []
  | fuel + 1, n => if n = 0 then [] else natToBytesBEAux fuel (n / 256) ++ [n % 256]

/-- Big-endian byte rendering of a natural number (no leading zero bytes). -/
def natToBytesBE (n : Nat) : List Nat := natToBytesBEAux n n

theorem bytesToNatBE_append (l : List Nat) (b : Nat) :
    bytesToNatBE (l ++ [b]) = 256 * bytesToNatBE l + b := by
  simp [bytesToNatBE, List.foldl_append]; ring

theorem natToBytesBEAux_spec : ∀ fuel n, n ≤ fuel → bytesToNatBE (natToBytesBEAux fuel n) = n := by
  intro fuel
  induction fuel with
  | zero => intro n h; simp at h; simp [h, natToBytesBEAux, bytesToNatBE]
  | succ f ih =>
    intro n h
    rw [natToBytesBEAux]
    split
    · rename_i h0; simp [h0, bytesToNatBE]
    · rename_i h0
      rw [bytesToNatBE_append, ih (n / 256) (by omega)]
      omega

theorem bytesToNatBE_natToBytesBE (n : Nat) : bytesToNatBE (natToBytesBE n) = n :=
  natToBytesBEAux_spec n n (Nat.le_refl n)

theorem natToBytesBEAux_lt256 : ∀ fuel n, ∀ b ∈ natToBytesBEAux fuel n, b < 256 := by
  intro fuel
  induction fuel with
  | zero => intro n b hb; simp [natToBytesBEAux] at hb
  | succ f ih =>
    intro n b hb
    rw [natToBytesBEAux] at hb
    split at hb
    · simp at hb
    · rcases List.mem_append.mp hb with h1 | h2
      · exact ih (n / 256) b h1
      · simp at h2; omega

theorem natToBytesBE_lt256 (n : Nat) : ∀ b ∈ natToBytesBE n, b < 256 :=
  natToBytesBEAux_lt256 n n

/-! ## Base64url without padding (the `URL_SAFE_NO_PAD` engine used by
main.rs and keystore.rs) -/

/-- The 64-character base64url alphabet. -/
def b64Alphabet : List Char :=
  ['A', 'B', 'C', 'D', 'E', 'F', 'G', 'H', 'I', 'J', 'K', 'L', 'M',
   'N', 'O', 'P', 'Q', 'R', 'S', 'T', 'U', 'V', 'W', 'X', 'Y', 'Z',
   'a', 'b', 'c', 'd', 'e', 'f', 'g', 'h', 'i', 'j', 'k', 'l', 'm',
   'n', 'o', 'p', 'q', 'r', 's', 't', 'u', 'v', 'w', 'x', 'y', 'z',
   '0', '1', '2', '3', '4', '5', '6', '7', '8', '9', '-', '_']

/-- Character for a sextet value. -/
def b64CharOf (s : Nat) : Char := b64Alphabet.getD s 'A'

/-- Sextet value of a character, `none` for characters outside the alphabet. -/
def b64IndexOf (c : Char) : Option Nat := b64Alphabet.findIdx? (fun a => a == c)

/-- Pack bytes into six-bit groups, three bytes to four sextets. -/
def encSextets : List Nat → List Nat
  | [] => []
  | [b1] => [b1 / 4, b1 % 4 * 16]
  | [b1, b2] => [b1 / 4, b1 % 4 * 16 + b2 / 16, b2 % 16 * 4]
  | b1 :: b2 :: b3 :: rest =>
      b1 / 4 :: (b1 % 4 * 16 + b2 / 16) :: (b2 % 16 * 4 + b3 / 64) :: b3 % 64 :: encSextets rest

/-- Unpack six-bit groups back into bytes; a single trailing sextet is invalid. -/
def decSextets : List Nat → Option (List Nat)
  | [] => some []
  | [_] => none
  | [s1, s2] => some [s1 * 4 + s2 / 16]
  | [s1, s2, s3] => some [s1 * 4 + s2 / 16, s2 % 16 * 16 + s3 / 4]
  | s1 :: s2 :: s3 :: s4 :: rest =>
      (decSextets rest).map
        (fun bs => (s1 * 4 + s2 / 16) :: (s2 % 16 * 16 + s3 / 4) :: (s3 % 4 * 64 + s4) :: bs)

theorem decSextets_encSextets (bs : List Nat) (h : ∀ b ∈ bs, b < 256) :
    decSextets (encSextets bs) = some bs := by
  induction bs using encSextets.induct with
  | case1 => rfl
  | case2 b1 =>
    have h1 := h b1 (by simp)
    simp [encSextets, decSextets]
    omega
  | case3 b1 b2 =>
    have h1 := h b1 (by simp)
    have h2 := h b2 (by simp)
    simp [encSextets, decSextets]
    constructor <;> omega
  | case4 b1 b2 b3 rest ih =>
    have h1 := h b1 (by simp)
    have h2 := h b2 (by simp)
    have h3 := h b3 (by simp)
    have hrest : ∀ b ∈ rest, b < 256 := fun b hb => h b (by simp [hb])
    simp [encSextets, decSextets, ih hrest]
    refine ⟨by omega, by omega, by omega⟩

theorem encSextets_lt64 (bs : List Nat) (h : ∀ b ∈ bs, b < 256) :
    ∀ s ∈ encSextets bs, s < 64 := by
  induction bs using encSextets.induct with
  | case1 => simp [encSextets]
  | case2 b1 =>
    have h1 := h b1 (by simp)
    simp [encSextets]; omega
  | case3 b1 b2 =>
    have h1 := h b1 (by simp)
    have h2 := h b2 (by simp)
    simp [encSextets]
    refine ⟨by omega, by omega, by omega⟩
  | case4 b1 b2 b3 rest ih =>
    have h1 := h b1 (by simp)
    have h2 := h b2 (by simp)
    have h3 := h b3 (by simp)
    have hrest : ∀ b ∈ rest, b < 256 := fun b hb => h b (by simp [hb])
    intro s hs
    simp [encSextets] at hs
    rcases hs with h' | h' | h' | h' | h'
    · omega
    · omega
    · omega
    · omega
    · exact ih hrest s h'

theorem b64IndexOf_b64CharOf : ∀ s < 64, b64IndexOf (b64CharOf s) = some s := by decide

/-- Encode a byte list as a base64url-no-pad string. -/
def b64UrlNoPadEncode (bs : List Nat) : String := String.mk ((encSextets bs).map b64CharOf)

/-- Map characters to sextets, failing on any character outside the alphabet. -/
def sextetsOfChars : List Char → Option (List Nat)
  | [] => some []
  | c :: cs =>
    match b64IndexOf c, sextetsOfChars cs with
    | some s, some sx => some (s :: sx)
    | _, _ => none

/-- Decode a base64url-no-pad string, failing on malformed input. -/
def b64UrlNoPadDecode (str : String) : Option (List Nat) :=
  match sextetsOfChars str.data with
  | none => none
  | some sx => decSextets sx

theorem sextetsOfChars_map (l : List Nat) (h : ∀ s ∈ l, s < 64) :
    sextetsOfChars (l.map b64CharOf) = some l := by
  induction l with
  | nil => rfl
  | cons a l ih =>
    have ha := h a (by simp)
    have hl : ∀ s ∈ l, s < 64 := fun s hs => h s (by simp [hs])
    simp [sextetsOfChars, b64IndexOf_b64CharOf a ha, ih hl]

theorem b64UrlNoPad_round_trip (bs : List Nat) (h : ∀ b ∈ bs, b < 256) :
    b64UrlNoPadDecode (b64UrlNoPadEncode bs) = some bs := by
  rw [b64UrlNoPadEncode, b64UrlNoPadDecode]
  have hdata : (String.mk ((encSextets bs).map b64CharOf)).data
      = (encSextets bs).map b64CharOf := rfl
  rw [hdata, sextetsOfChars_map _ (encSextets_lt64 bs h)]
  simp [decSextets_encSextets bs h]

/-! ## RSA modular exponentiation (the arithmetic core of the rsa crate
operations used by keystore.rs and its round-trip test) -/

/-- RSA public-key operation: message to the public exponent, mod n. -/
def rsaEncryptNat (n e m : Nat) : Nat := m ^ e % n

/-- RSA private-key operation: ciphertext to the private exponent, mod n. -/
def rsaDecryptNat (n d c : Nat) : Nat := c ^ d % n

theorem pow_fermat_round (p : Nat) (hp : p.Prime) (m j : Nat) :
    m ^ (j * (p - 1) + 1) ≡ m [MOD p] := by
  by_cases hdvd : p ∣ m
  · have h0 : m ≡ 0 [MOD p] := (Nat.modEq_zero_iff_dvd).mpr hdvd
    calc m ^ (j * (p - 1) + 1) ≡ 0 ^ (j * (p - 1) + 1) [MOD p] := h0.pow _
      _ = 0 := by simp
      _ ≡ m [MOD p] := h0.symm
  · have hco : m.Coprime p := ((Nat.Prime.coprime_iff_not_dvd hp).mpr hdvd).symm
    have hf : m ^ (p - 1) ≡ 1 [MOD p] := by
      have ht := Nat.ModEq.pow_totient hco
      rwa [Nat.totient_prime hp] at ht
    calc m ^ (j * (p - 1) + 1) = (m ^ (p - 1)) ^ j * m := by
          rw [← pow_mul, ← pow_succ]
          ring_nf
      _ ≡ 1 ^ j * m [MOD p] := (hf.pow j).mul_right m
      _ = m := by simp

theorem rsa_exp_round_trip (p q e d m : Nat) (hp : p.Prime) (hq : q.Prime) (hpq : p ≠ q)
    (hed : e * d ≡ 1 [MOD (p - 1) * (q - 1)]) (hm : m < p * q) :
    rsaDecryptNat (p * q) d (rsaEncryptNat (p * q) e m) = m := by
  have hp2 := hp.two_le
  have hq2 := hq.two_le
  have ht2 : 2 ≤ (p - 1) * (q - 1) := by
    have hor : 2 ≤ p - 1 ∨ 2 ≤ q - 1 := by omega
    rcases hor with h | h
    · calc 2 = 2 * 1 := rfl
        _ ≤ (p - 1) * (q - 1) := Nat.mul_le_mul h (by omega)
    · calc 2 = 1 * 2 := rfl
        _ ≤ (p - 1) * (q - 1) := Nat.mul_le_mul (by omega) h
  have hmod : (e * d) % ((p - 1) * (q - 1)) = 1 := by
    have h1 : (1 : Nat) % ((p - 1) * (q - 1)) = 1 := Nat.mod_eq_of_lt (by omega)
    have h2 : e * d % ((p - 1) * (q - 1)) = 1 % ((p - 1) * (q - 1)) := hed
    rw [h2, h1]
  have hsplit : e * d = (p - 1) * (q - 1) * (e * d / ((p - 1) * (q - 1))) + 1 := by
    conv_lhs => rw [← Nat.div_add_mod (e * d) ((p - 1) * (q - 1))]
    rw [hmod]
  set k := e * d / ((p - 1) * (q - 1)) with hk
  have hmodp : m ^ (e * d) ≡ m [MOD p] := by
    have h := pow_fermat_round p hp m ((q - 1) * k)
    have hexp : (q - 1) * k * (p - 1) + 1 = e * d := by rw [hsplit]; ring
    rwa [hexp] at h
  have hmodq : m ^ (e * d) ≡ m [MOD q] := by
    have h := pow_fermat_round q hq m ((p - 1) * k)
    have hexp : (p - 1) * k * (q - 1) + 1 = e * d := by rw [hsplit]; ring
    rwa [hexp] at h
  have hco : p.Coprime q := (Nat.coprime_primes hp hq).mpr hpq
  have hmodn : m ^ (e * d) ≡ m [MOD p * q] :=
    (Nat.modEq_and_modEq_iff_modEq_mul hco).mp ⟨hmodp, hmodq⟩
  calc rsaDecryptNat (p * q) d (rsaEncryptNat (p * q) e m)
      = (m ^ e % (p * q)) ^ d % (p * q) := rfl
    _ = (m ^ e) ^ d % (p * q) := by rw [← Nat.pow_mod]
    _ = m ^ (e * d) % (p * q) := by rw [← pow_mul]
    _ = m % (p * q) := hmodn
    _ = m := Nat.mod_eq_of_lt hm

/-! ## Challenger (keybroker-server/src/challenge.rs) -/

/-- A single challenge: identity, requested key, wrapping key and nonce. -/
structure Challenge where
  challenge_id : Nat
  key_id : String
  wrapping_key : PublicWrappingKey
  challenge_value : List Nat
deriving DecidableEq, Repr

/-- The challenge table: a map from u32 ids to challenges, as in
`Challenger.challenge_table : HashMap<u32, Challenge>`. -/
abbrev ChallengeTable := List (Nat × Challenge)

/-- Map lookup on the challenge table. -/
def tableGet (t : ChallengeTable) (id : Nat) : Option Challenge :=
  (t.find? (fun p => p.fst == id)).map Prod.snd

/-- Map insertion on the challenge table (replacing any entry with the key). -/
def tableInsert (t : ChallengeTable) (id : Nat) (c : Challenge) : ChallengeTable :=
  (id, c) :: t.filter (fun p => !(p.fst == id))

/-- Map removal on the challenge table. -/
def tableRemove (t : ChallengeTable) (id : Nat) : ChallengeTable :=
  t.filter (fun p => !(p.fst == id))

/-- The fixed CCA example token nonce used for mock challenges
(`CCA_EXAMPLE_TOKEN_NONCE` in challenge.rs). -/
def ccaExampleTokenNonce : List Nat :=
  [0x6e, 0x86, 0xd6, 0xd9, 0x7c, 0xc7, 0x13, 0xbc, 0x6d, 0xd4, 0x3d, 0xbc, 0xe4, 0x91, 0xa6, 0xb4,
   0x03, 0x11, 0xc0, 0x27, 0xa8, 0xbf, 0x85, 0xa3, 0x9d, 0xa6, 0x3e, 0x9c, 0xe4, 0x4c, 0x13, 0x2a,
   0x8a, 0x11, 0x9d, 0x29, 0x6f, 0xae, 0x6a, 0x69, 0x99, 0xe9, 0xbf, 0x3e, 0x44, 0x71, 0xb0, 0xce,
   0x01, 0x24, 0x5d, 0x88, 0x94, 0x24, 0xc3, 0x1e, 0x89, 0x79, 0x3b, 0x3b, 0x1d, 0x6b, 0x15, 0x04]

/-- First offered random id that is nonzero and not yet live; `none` models a
random stream that never offers a usable id (the Rust loop would not
terminate on such a stream). -/
def firstFreshId (t : ChallengeTable) : List Nat → Option Nat
  | [] => none
  | cand :: rest =>
      if cand ≠ 0 ∧ tableGet t cand = none then some cand else firstFreshId t rest

/-- Allocate a new challenge and store it in the table. The random generator
is modelled by the stream `idCands` of offered u32 ids and the byte stream
`rngByte` used to fill the 64-byte nonce. -/
def Challenger.create_challenge (t : ChallengeTable) (key_id : String)
    (wrapping_key : PublicWrappingKey) (mock_challenge : Bool)
    (idCands : List Nat) (rngByte : Nat → Nat) : Option (Challenge × ChallengeTable) :=
  match firstFreshId t idCands with
  | none => none
  | some challenge_id =>
    let challenge : Challenge :=
      { challenge_id := challenge_id
        key_id := key_id
        wrapping_key := wrapping_key
        challenge_value :=
          if mock_challenge then ccaExampleTokenNonce
          else (List.range 64).map rngByte }
    some (challenge, tableInsert t challenge_id challenge)

/-- Look up a challenge; the table is returned unchanged (`&self` receiver). -/
def Challenger.get_challenge (t : ChallengeTable) (challenge_id : Nat) :
    ChallengeTable × Except Error Challenge :=
  (t,
    match tableGet t challenge_id with
    | some c => .ok c
    | none => .error (.Challenge .ChallengeNotFound))

/-- Delete a challenge, failing if no such challenge is found; on success the
updated table is returned. -/
def Challenger.delete_challenge (t : ChallengeTable) (challenge_id : Nat) :
    Except Error ChallengeTable :=
  match tableGet t challenge_id with
  | some _ => .ok (tableRemove t challenge_id)
  | none => .error (.Challenge .ChallengeNotFound)

/-- Table invariant: live ids are pairwise distinct and nonzero, and each
stored challenge carries its own table key as `challenge_id`. -/
def TableWF (t : ChallengeTable) : Prop :=
  (t.map Prod.fst).Nodup ∧ ∀ p ∈ t, p.fst ≠ 0 ∧ p.snd.challenge_id = p.fst

theorem firstFreshId_spec (t : ChallengeTable) :
    ∀ cands id, firstFreshId t cands = some id → id ≠ 0 ∧ tableGet t id = none := by
  intro cands
  induction cands with
  | nil => intro id h; simp [firstFreshId] at h
  | cons cand rest ih =>
    intro id h
    rw [firstFreshId] at h
    split at h
    · rename_i hc
      cases h
      exact hc
    · exact ih id h

theorem tableGet_tableRemove_self (t : ChallengeTable) (id : Nat) :
    tableGet (tableRemove t id) id = none := by
  induction t with
  | nil => rfl
  | cons p t ih =>
    by_cases h : p.fst = id
    · simp only [tableRemove, List.filter, h, beq_self_eq_true, Bool.not_true] at ih ⊢
      exact ih
    · simp only [tableRemove, List.filter] at ih ⊢
      have hb : (p.fst == id) = false := by simp [h]
      simp only [hb, Bool.not_false, tableGet, List.find?] at ih ⊢
      exact ih

theorem tableGet_tableInsert_self (t : ChallengeTable) (id : Nat) (c : Challenge) :
    tableGet (tableInsert t id c) id = some c := by
  simp [tableGet, tableInsert, List.find?]

theorem tableRemove_sublist (t : ChallengeTable) (id : Nat) :
    List.Sublist (tableRemove t id) t := List.filter_sublist t

theorem tableRemove_wf (t : ChallengeTable) (id : Nat) (h : TableWF t) :
    TableWF (tableRemove t id) := by
  constructor
  · exact h.1.sublist ((tableRemove_sublist t id).map Prod.fst)
  · intro p hp
    exact h.2 p ((tableRemove_sublist t id).mem hp)

theorem tableInsert_wf (t : ChallengeTable) (id : Nat) (c : Challenge)
    (h : TableWF t) (hid : id ≠ 0) (hcid : c.challenge_id = id) :
    TableWF (tableInsert t id c) := by
  constructor
  · simp only [tableInsert, List.map_cons, List.nodup_cons]
    constructor
    · intro hmem
      rcases List.mem_map.mp hmem with ⟨p, hp, hpid⟩
      have := List.of_mem_filter hp
      simp [hpid] at this
    · exact h.1.sublist ((List.filter_sublist t).map Prod.fst)
  · intro p hp
    rcases List.mem_cons.mp hp with h' | h'
    · subst h'; exact ⟨hid, hcid⟩
    · exact h.2 p ((List.filter_sublist t).mem h')

/-- Claim C3: every id returned by `create_challenge` is nonzero and distinct
from every id currently live in the table (the generator retries on zero and
on collision), and the invariant that every live challenge has a unique
nonzero id is preserved by `create_challenge` and by `delete_challenge`. -/
theorem create_challenge_id_fresh_nonzero_invariant
    (t : ChallengeTable) (key_id : String) (wk : PublicWrappingKey) (mock : Bool)
    (cands : List Nat) (rngByte : Nat → Nat) (c : Challenge) (t2 : ChallengeTable)
    (hwf : TableWF t)
    (h : Challenger.create_challenge t key_id wk mock cands rngByte = some (c, t2)) :
    c.challenge_id ≠ 0 ∧ tableGet t c.challenge_id = none ∧ TableWF t2 ∧
    (∀ i t3, Challenger.delete_challenge t2 i = .ok t3 → TableWF t3) := by
  rw [Challenger.create_challenge] at h
  split at h
  · cases h
  · rename_i id hfresh
    have hspec := firstFreshId_spec t cands id hfresh
    cases h
    refine ⟨hspec.1, hspec.2, ?_, ?_⟩
    · exact tableInsert_wf t id _ hwf hspec.1 rfl
    · intro i t3 hdel
      rw [Challenger.delete_challenge] at hdel
      split at hdel
      · cases hdel
        exact tableRemove_wf _ i (tableInsert_wf t id _ hwf hspec.1 rfl)
      · cases hdel

/-- Demo wrapping key: RSA modulus 55 and exponent 3, base64url encoded. -/
def wkDemo : PublicWrappingKey := { kty := "RSA", alg := "RSA1_5", n := "Nw", e := "Aw" }

/-- Concrete challenge produced by the C3 witness run. -/
def c3Challenge : Challenge :=
  { challenge_id := 5, key_id := "skywalker", wrapping_key := wkDemo,
    challenge_value := ccaExampleTokenNonce }

/-- Witness for claim C3 at a concrete input. -/
theorem create_challenge_id_fresh_nonzero_invariant_witness :
    c3Challenge.challenge_id ≠ 0 ∧ tableGet [] c3Challenge.challenge_id = none ∧
    TableWF [(5, c3Challenge)] ∧
    (∀ i t3, Challenger.delete_challenge [(5, c3Challenge)] i = .ok t3 → TableWF t3) :=
  create_challenge_id_fresh_nonzero_invariant [] "skywalker" wkDemo true [5] (fun _ => 0)
    c3Challenge [(5, c3Challenge)] (by simp [TableWF]) (by rfl)

/-- Claim C9: a created challenge carries the requested `key_id` and the
supplied wrapping key, its nonce is the fixed CCA example vector when `mock`
is set and the 64 freshly drawn random bytes otherwise, the nonce is 64 bytes
long in both cases, and the challenge is stored: an immediate lookup of the
returned id yields the very same challenge without mutating the table. -/
theorem create_challenge_stores_challenge
    (t : ChallengeTable) (key_id : String) (wk : PublicWrappingKey) (mock : Bool)
    (cands : List Nat) (rngByte : Nat → Nat) (c : Challenge) (t2 : ChallengeTable)
    (h : Challenger.create_challenge t key_id wk mock cands rngByte = some (c, t2)) :
    c.key_id = key_id ∧ c.wrapping_key = wk ∧
    (mock = true → c.challenge_value = ccaExampleTokenNonce) ∧
    (mock = false → c.challenge_value = (List.range 64).map rngByte) ∧
    c.challenge_value.length = 64 ∧
    Challenger.get_challenge t2 c.challenge_id = (t2, .ok c) := by
  rw [Challenger.create_challenge] at h
  split at h
  · cases h
  · rename_i id hfresh
    cases h
    refine ⟨rfl, rfl, ?_, ?_, ?_, ?_⟩
    · intro hm; simp [hm]
    · intro hm; simp [hm]
    · cases mock <;> simp [ccaExampleTokenNonce]
    · simp [Challenger.get_challenge, tableGet_tableInsert_self]

/-- Concrete challenge produced by the C9 witness run (real-nonce mode). -/
def c9Challenge : Challenge :=
  { challenge_id := 9, key_id := "skywalker", wrapping_key := wkDemo,
    challenge_value := (List.range 64).map (fun _ => 7) }

/-- Witness for claim C9 at a concrete input. -/
theorem create_challenge_stores_challenge_witness :
    c9Challenge.key_id = "skywalker" ∧ c9Challenge.wrapping_key = wkDemo ∧
    (false = true → c9Challenge.challenge_value = ccaExampleTokenNonce) ∧
    (false = false → c9Challenge.challenge_value = (List.range 64).map (fun _ => 7)) ∧
    c9Challenge.challenge_value.length = 64 ∧
    Challenger.get_challenge [(9, c9Challenge)] c9Challenge.challenge_id
      = ([(9, c9Challenge)], .ok c9Challenge) :=
  create_challenge_stores_challenge [] "skywalker" wkDemo false [9] (fun _ => 7)
    c9Challenge [(9, c9Challenge)] (by rfl)

/-- Claim C10: once `delete_challenge id` has succeeded, both a subsequent
lookup and a subsequent deletion of the same id fail with
`ChallengeNotFound`, and `get_challenge` never mutates the table. -/
theorem delete_challenge_consumes_entry
    (t : ChallengeTable) (id : Nat) (t2 : ChallengeTable)
    (h : Challenger.delete_challenge t id = .ok t2) :
    (Challenger.get_challenge t2 id).snd = .error (.Challenge .ChallengeNotFound) ∧
    Challenger.delete_challenge t2 id = .error (.Challenge .ChallengeNotFound) ∧
    (∀ t3 i, (Challenger.get_challenge t3 i).fst = t3) := by
  rw [Challenger.delete_challenge] at h
  split at h
  · cases h
    refine ⟨?_, ?_, fun t3 i => rfl⟩
    · simp [Challenger.get_challenge, tableGet_tableRemove_self]
    · simp [Challenger.delete_challenge, tableGet_tableRemove_self]
  · cases h

/-- Witness for claim C10 at a concrete input. -/
theorem delete_challenge_consumes_entry_witness :
    (Challenger.get_challenge [] 5).snd = .error (.Challenge .ChallengeNotFound) ∧
    Challenger.delete_challenge [] 5 = .error (.Challenge .ChallengeNotFound) ∧
    (∀ t3 i, (Challenger.get_challenge t3 i).fst = t3) :=
  delete_challenge_consumes_entry [(5, c3Challenge)] 5 [] (by rfl)

/-! ## KeyStore (keybroker-server/src/keystore.rs) -/

/-- External collaborators of `wrap_key`: the two padding schemes of the rsa
crate (randomness already fixed inside the function, mapping plaintext bytes
to the padded integer to be exponentiated) and the validity check performed
by `RsaPublicKey::new`. -/
structure WrapCtx where
  padPkcs1 : List Nat → Nat
  padOaep : List Nat → Nat
  keyCheck : Nat → Nat → Bool

/-- Observable effects of `wrap_key`: RSA public-key construction and the
actual encryption operation. -/
inductive WrapEvent where
  | constructKey
  | encrypt
deriving DecidableEq, Repr

/-- A minimally simple key-value store from string ids to secret bytes. -/
structure KeyStore where
  keys : List (String × List Nat)
deriving DecidableEq, Repr

/-- Store a new key, overwriting any existing entry for that id. -/
def KeyStore.store_key (ks : KeyStore) (key_id : String) (data : List Nat) : KeyStore :=
  ⟨(key_id, data) :: ks.keys.filter (fun p => !(p.fst == key_id))⟩

/-- Map lookup in the key store (`get_key_value`). -/
def KeyStore.getKey (ks : KeyStore) (key_id : String) : Option (List Nat) :=
  (ks.keys.find? (fun p => p.fst == key_id)).map Prod.snd

/-- Obtain a wrapped (encrypted) data item from the store, following the
source order exactly: key-type check, base64url decoding of modulus and
exponent, RSA public-key construction, store lookup, algorithm dispatch,
encryption, base64url encoding of the ciphertext. -/
def KeyStore.wrap_key (ctx : WrapCtx) (ks : KeyStore) (key_id : String)
    (wrapping_key : PublicWrappingKey) : Except Error WrappedKeyData × List WrapEvent :=
  if wrapping_key.kty ≠ "RSA" then
    (.error (.KeyStore .UnsupportedWrappingKeyType), [])
  else
    match b64UrlNoPadDecode wrapping_key.n with
    | none => (.error .Base64Decode, [])
    | some kMod =>
      match b64UrlNoPadDecode wrapping_key.e with
      | none => (.error .Base64Decode, [])
      | some kExp =>
        let n := bytesToNatBE kMod
        let e := bytesToNatBE kExp
        if ctx.keyCheck n e = false then (.error .Rsa, [.constructKey])
        else
          match KeyStore.getKey ks key_id with
          | some data =>
            if wrapping_key.alg = "RSA1_5" then
              (.ok ⟨b64UrlNoPadEncode (natToBytesBE (rsaEncryptNat n e (ctx.padPkcs1 data)))⟩,
               [.constructKey, .encrypt])
            else if wrapping_key.alg = "RSA-OAEP" then
              (.ok ⟨b64UrlNoPadEncode (natToBytesBE (rsaEncryptNat n e (ctx.padOaep data)))⟩,
               [.constructKey, .encrypt])
            else
              (.error (.KeyStore .UnsupportedWrappingKeyAlgorithm), [.constructKey])
          | none => (.error (.KeyStore .KeyNotFound), [.constructKey])

/-- Claim C5: `wrap_key` rejects a non-RSA key type with
`UnsupportedWrappingKeyType` before any key construction; with decodable,
constructible RSA key material it rejects an unknown `key_id` with
`KeyNotFound`; and with a stored `key_id` it rejects an algorithm other than
"RSA1_5" or "RSA-OAEP" with `UnsupportedWrappingKeyAlgorithm` without
performing any encryption. -/
theorem wrap_key_error_taxonomy (ctx : WrapCtx) (ks : KeyStore) (key_id : String)
    (wk : PublicWrappingKey) :
    (wk.kty ≠ "RSA" →
      KeyStore.wrap_key ctx ks key_id wk
        = (.error (.KeyStore .UnsupportedWrappingKeyType), [])) ∧
    (∀ kMod kExp, wk.kty = "RSA" →
      b64UrlNoPadDecode wk.n = some kMod → b64UrlNoPadDecode wk.e = some kExp →
      ctx.keyCheck (bytesToNatBE kMod) (bytesToNatBE kExp) = true →
      KeyStore.getKey ks key_id = none →
      KeyStore.wrap_key ctx ks key_id wk
        = (.error (.KeyStore .KeyNotFound), [.constructKey])) ∧
    (∀ kMod kExp data, wk.kty = "RSA" →
      b64UrlNoPadDecode wk.n = some kMod → b64UrlNoPadDecode wk.e = some kExp →
      ctx.keyCheck (bytesToNatBE kMod) (bytesToNatBE kExp) = true →
      KeyStore.getKey ks key_id = some data →
      wk.alg ≠ "RSA1_5" → wk.alg ≠ "RSA-OAEP" →
      KeyStore.wrap_key ctx ks key_id wk
        = (.error (.KeyStore .UnsupportedWrappingKeyAlgorithm), [.constructKey])) := by
  refine ⟨?_, ?_, ?_⟩
  · intro hkty
    simp [KeyStore.wrap_key, hkty]
  · intro kMod kExp hkty hn he hchk hget
    simp [KeyStore.wrap_key, hkty, hn, he, hchk, hget]
  · intro kMod kExp data hkty hn he hchk hget halg1 halg2
    simp [KeyStore.wrap_key, hkty, hn, he, hchk, hget, halg1, halg2]

/-- Padding context for witnesses: the padded integer is just the big-endian
value of the plaintext, and key construction always succeeds. -/
def ctxDemo : WrapCtx :=
  { padPkcs1 := fun bs => bytesToNatBE bs
    padOaep := fun bs => bytesToNatBE bs
    keyCheck := fun _ _ => true }

/-- Demo key store holding a single two-valued secret under id "skywalker". -/
def ksDemo : KeyStore := ⟨[("skywalker", [2])]⟩

/-- Witness for claim C5 at concrete inputs, one per error category. -/
theorem wrap_key_error_taxonomy_witness :
    KeyStore.wrap_key ctxDemo ksDemo "skywalker"
        { kty := "EC", alg := "RSA1_5", n := "Nw", e := "Aw" }
      = (.error (.KeyStore .UnsupportedWrappingKeyType), []) ∧
    KeyStore.wrap_key ctxDemo ksDemo "vader" wkDemo
      = (.error (.KeyStore .KeyNotFound), [.constructKey]) ∧
    KeyStore.wrap_key ctxDemo ksDemo "skywalker"
        { kty := "RSA", alg := "RSA-OAEP-256", n := "Nw", e := "Aw" }
      = (.error (.KeyStore .UnsupportedWrappingKeyAlgorithm), [.constructKey]) :=
  ⟨(wrap_key_error_taxonomy ctxDemo ksDemo "skywalker"
      { kty := "EC", alg := "RSA1_5", n := "Nw", e := "Aw" }).1 (by decide),
   (wrap_key_error_taxonomy ctxDemo ksDemo "vader" wkDemo).2.1 [55] [3]
      (by rfl) (by rfl) (by rfl) (by rfl) (by rfl),
   (wrap_key_error_taxonomy ctxDemo ksDemo "skywalker"
      { kty := "RSA", alg := "RSA-OAEP-256", n := "Nw", e := "Aw" }).2.2 [55] [3] [2]
      (by rfl) (by rfl) (by rfl) (by rfl) (by rfl) (by decide) (by decide)⟩

/-- Padding scheme selected by `wrap_key` for a given algorithm tag. -/
def padFor (ctx : WrapCtx) (alg : String) : List Nat → Nat :=
  if alg = "RSA1_5" then ctx.padPkcs1 else ctx.padOaep

/-- Client-side unwrapping: base64url-no-pad decode of the returned
ciphertext, RSA private-key decryption, then removal of the padding that
matches the algorithm tag (`unpad`). -/
def unwrapWithPrivateKey (nMod d : Nat) (unpad : Nat → Option (List Nat))
    (w : WrappedKeyData) : Option (List Nat) :=
  match b64UrlNoPadDecode w.data with
  | none => none
  | some cipherBytes => unpad (rsaDecryptNat nMod d (bytesToNatBE cipherBytes))

/-- Claim C8: for every stored secret and RSA key pair (distinct primes p, q
with exponents satisfying the RSA congruence), `wrap_key` with the public
wrapping key followed by base64url-no-pad decoding and private-key
decryption with the padding matched to the algorithm tag yields exactly the
original stored plaintext, for both "RSA1_5" and "RSA-OAEP". -/
theorem wrap_key_round_trip
    (ctx : WrapCtx) (ks : KeyStore) (key_id : String) (data : List Nat)
    (p q e d : Nat) (wk : PublicWrappingKey) (unpad : Nat → Option (List Nat))
    (hp : p.Prime) (hq : q.Prime) (hpq : p ≠ q)
    (hed : e * d ≡ 1 [MOD (p - 1) * (q - 1)])
    (hkty : wk.kty = "RSA")
    (hn : wk.n = b64UrlNoPadEncode (natToBytesBE (p * q)))
    (he : wk.e = b64UrlNoPadEncode (natToBytesBE e))
    (hchk : ctx.keyCheck (p * q) e = true)
    (hget : KeyStore.getKey ks key_id = some data)
    (halg : wk.alg = "RSA1_5" ∨ wk.alg = "RSA-OAEP")
    (hpad : padFor ctx wk.alg data < p * q)
    (hunpad : unpad (padFor ctx wk.alg data) = some data) :
    ∃ w, (KeyStore.wrap_key ctx ks key_id wk).fst = .ok w ∧
         unwrapWithPrivateKey (p * q) d unpad w = some data := by
  have hdn : b64UrlNoPadDecode wk.n = some (natToBytesBE (p * q)) := by
    rw [hn]; exact b64UrlNoPad_round_trip _ (natToBytesBE_lt256 _)
  have hde : b64UrlNoPadDecode wk.e = some (natToBytesBE e) := by
    rw [he]; exact b64UrlNoPad_round_trip _ (natToBytesBE_lt256 _)
  have hvn : bytesToNatBE (natToBytesBE (p * q)) = p * q := bytesToNatBE_natToBytesBE _
  have hve : bytesToNatBE (natToBytesBE e) = e := bytesToNatBE_natToBytesBE _
  have hunwrap : ∀ padded, padded < p * q → unpad padded = some data →
      unwrapWithPrivateKey (p * q) d unpad
        ⟨b64UrlNoPadEncode (natToBytesBE (rsaEncryptNat (p * q) e padded))⟩ = some data := by
    intro padded hlt hu
    simp only [unwrapWithPrivateKey, b64UrlNoPad_round_trip _ (natToBytesBE_lt256 _),
      bytesToNatBE_natToBytesBE, rsa_exp_round_trip p q e d padded hp hq hpq hed hlt]
    exact hu
  rcases halg with halg | halg
  · refine ⟨⟨b64UrlNoPadEncode (natToBytesBE (rsaEncryptNat (p * q) e (ctx.padPkcs1 data)))⟩,
      ?_, ?_⟩
    · simp [KeyStore.wrap_key, hkty, hdn, hde, hvn, hve, hchk, hget, halg]
    · have hsel : padFor ctx wk.alg = ctx.padPkcs1 := by rw [halg]; rfl
      exact hunwrap _ (hsel ▸ hpad) (hsel ▸ hunpad)
  · have hne : wk.alg ≠ "RSA1_5" := by rw [halg]; decide
    refine ⟨⟨b64UrlNoPadEncode (natToBytesBE (rsaEncryptNat (p * q) e (ctx.padOaep data)))⟩,
      ?_, ?_⟩
    · simp [KeyStore.wrap_key, hkty, hdn, hde, hvn, hve, hchk, hget, halg, hne]
    · have hsel : padFor ctx wk.alg = ctx.padOaep := by rw [halg]; rfl
      exact hunwrap _ (hsel ▸ hpad) (hsel ▸ hunpad)

/-- Witness for claim C8 with the key pair p = 5, q = 11, e = 3, d = 27. -/
theorem wrap_key_round_trip_witness :
    ∃ w, (KeyStore.wrap_key ctxDemo ksDemo "skywalker" wkDemo).fst = .ok w ∧
         unwrapWithPrivateKey 55 27 (fun m => some (natToBytesBE m)) w = some [2] :=
  wrap_key_round_trip ctxDemo ksDemo "skywalker" [2] 5 11 3 27 wkDemo
    (fun m => some (natToBytesBE m))
    (by norm_num) (by norm_num) (by decide) (by rfl) (by rfl) (by decide) (by decide)
    (by rfl) (by rfl) (Or.inl rfl) (by decide) (by rfl)

/-! ## Policy binding and verifier (keybroker-server/src/policy.rs and
verifier.rs) -/

/-- Static media-type to policy binding table (`MEDIATYPES_TO_POLICY`). The
single key quotes the profile URI, exactly as in the source; the policy
source text of `arm-cca.rego` is opaque here and stands for the embedded
file contents. -/
def MEDIATYPES_TO_POLICY : List (String × String × String) :=
  [("application/eat-collection; profile=\"http://arm.com/CCA-SSD/1.0.0\"",
    "arm-cca.rego", "data.arm_cca.allow")]

/-- Lookup of `(policy, rule)` for a media type in the binding table. -/
def lookupPolicy (media_type : String) : Option (String × String) :=
  (MEDIATYPES_TO_POLICY.find? (fun p => p.fst == media_type)).map Prod.snd

/-- Attestation result token (EAR): profile plus named submodules. Only the
shape needed by the verifier logic is modelled; the submodule payloads stay
abstract strings. -/
structure Ear where
  profile : String
  submods : List (String × String)
deriving DecidableEq, Repr

/-- Capability descriptor returned by the Veraison discovery API. -/
structure VerificationApi where
  apiEndpoint : String → Option String
  earVerificationKey : String

/-- Outcomes of the external collaborators consumed by
`verify_with_veraison_instance`, in call order: discovery-client build,
capability fetch, challenge-response-client build, session creation (fed the
nonce), evidence submission (fed evidence, media type and session url), JWT
signature check and parse, JSON serialization of the claims, the diagnostics
trait object, and the policy-rule evaluation (fed policy, rule, reference
values and claims; the `String` result is the textual rendering of the
regorus `Value`). -/
structure VerifyEnv where
  discoveryBuild : Except Error Unit
  getVerificationApi : Except Error VerificationApi
  crBuild : Except Error Unit
  newSession : List Nat → Except Error String
  challengeResponse : List Nat → String → String → Except Error String
  earFromJwt : String → String → Except Error Ear
  earClaimsJson : Ear → Except Error String
  emitNoReferenceValues : Nat → Ear → Except Error Unit
  regoEvalResult : String → String → String → String → Except Error String

/-- Observable collaborator invocations inside the verifier. -/
inductive VEvent where
  | diagInvoked
  | policyEvalInvoked
deriving DecidableEq, Repr

/-- Orchestrated remote verification, following verifier.rs step by step:
discovery, capability resolution, session creation, evidence submission,
signature-checked EAR parsing, claims serialization, policy-binding lookup,
reference-value check with diagnostics, policy evaluation, and the strict
string comparison of the rule result against "true". -/
def verify_with_veraison_instance (env : VerifyEnv) (media_type : String)
    (challenge_id : Nat) (challenge : List Nat) (evidence : List Nat)
    (reference_values : Option String) : Except Error Bool × List VEvent :=
  match env.discoveryBuild with
  | .error err => (.error err, [])
  | .ok _ =>
  match env.getVerificationApi with
  | .error err => (.error err, [])
  | .ok api =>
  match api.apiEndpoint "newChallengeResponseSession" with
  | none => (.error (.Verification .NoChallengeResponseEndpoint), [])
  | some _relative_endpoint =>
  match env.crBuild with
  | .error err => (.error err, [])
  | .ok _ =>
  match env.newSession challenge with
  | .error err => (.error err, [])
  | .ok session_url =>
  match env.challengeResponse evidence media_type session_url with
  | .error err => (.error err, [])
  | .ok ear_string =>
  match env.earFromJwt ear_string api.earVerificationKey with
  | .error err => (.error err, [])
  | .ok ear =>
  match env.earClaimsJson ear with
  | .error err => (.error err, [])
  | .ok ear_claims =>
  match lookupPolicy media_type with
  | none => (.error (.Verification .PolicyNotFound), [])
  | some (policy, policy_rule) =>
  match reference_values with
  | none =>
    match env.emitNoReferenceValues challenge_id ear with
    | .error err => (.error err, [.diagInvoked])
    | .ok _ => (.error (.Verification .NoReferenceValues), [.diagInvoked])
  | some rv =>
    match env.regoEvalResult policy policy_rule rv ear_claims with
    | .error err => (.error err, [.policyEvalInvoked])
    | .ok results => (.ok (results == "true"), [.policyEvalInvoked])

/-- Claim C4: whenever the verifier returns a boolean verdict at all, that
verdict is the strict equality of the textual rendering of the policy-rule
result with the literal string "true"; so the verdict is `true` exactly when
the rendering is "true", every other rendering yields `false`, and error
outcomes (evaluation error, missing rule resolution, earlier failures) are
never the verdict `true`. -/
theorem verify_verdict_iff_rego_true (env : VerifyEnv) (media_type : String)
    (challenge_id : Nat) (challenge evidence : List Nat) (reference_values : Option String)
    (b : Bool)
    (h : (verify_with_veraison_instance env media_type challenge_id challenge evidence
            reference_values).fst = .ok b) :
    ∃ api ear ear_claims policy policy_rule rv results,
      env.getVerificationApi = .ok api ∧
      env.earClaimsJson ear = .ok ear_claims ∧
      lookupPolicy media_type = some (policy, policy_rule) ∧
      reference_values = some rv ∧
      env.regoEvalResult policy policy_rule rv ear_claims = .ok results ∧
      b = (results == "true") ∧ (b = true ↔ results = "true") := by
  rw [verify_with_veraison_instance] at h
  split at h
  · cases h
  · split at h
    · cases h
    · rename_i api _
      split at h
      · cases h
      · split at h
        · cases h
        · split at h
          · cases h
          · split at h
            · cases h
            · split at h
              · cases h
              · rename_i ear _
                split at h
                · cases h
                · rename_i ear_claims _
                  split at h
                  · cases h
                  · rename_i policy policy_rule hlook
                    split at h
                    · split at h
                      · cases h
                      · cases h
                    · rename_i rv
                      split at h
                      · cases h
                      · rename_i results hres
                        cases h
                        refine ⟨api, ear, ear_claims, policy, policy_rule,
                          rv, results, by assumption, by assumption, ?_, rfl, ?_, rfl, ?_⟩
                        · simpa using hlook
                        · simpa using hres
                        · simp

/-- All-success collaborator environment used by witnesses: every remote
step succeeds, the EAR parses, diagnostics succeed, and the policy rule
renders as the given string. -/
def envOkWith (res : String) : VerifyEnv :=
  { discoveryBuild := .ok ()
    getVerificationApi := .ok
      { apiEndpoint := fun name =>
          if name = "newChallengeResponseSession" then some "/newSession" else none
        earVerificationKey := "key" }
    crBuild := .ok ()
    newSession := fun _ => .ok "http://veraison.example/session/1"
    challengeResponse := fun _ _ _ => .ok "ear-jwt"
    earFromJwt := fun _ _ => .ok { profile := "tag:github.com,2023:veraison/ear", submods := [] }
    earClaimsJson := fun _ => .ok "claims-json"
    emitNoReferenceValues := fun _ _ => .ok ()
    regoEvalResult := fun _ _ _ _ => .ok res }

/-- The media type string carried as key of the policy binding table. -/
def ccaTableMediaType : String :=
  "application/eat-collection; profile=\"http://arm.com/CCA-SSD/1.0.0\""

/-- Witness for claim C4 at a concrete input where the rule renders "true". -/
theorem verify_verdict_iff_rego_true_witness :
    ∃ api ear ear_claims policy policy_rule rv results,
      (envOkWith "true").getVerificationApi = .ok api ∧
      (envOkWith "true").earClaimsJson ear = .ok ear_claims ∧
      lookupPolicy ccaTableMediaType = some (policy, policy_rule) ∧
      (some "reference-values.json" : Option String) = some rv ∧
      (envOkWith "true").regoEvalResult policy policy_rule rv ear_claims = .ok results ∧
      true = (results == "true") ∧ (true = true ↔ results = "true") :=
  verify_verdict_iff_rego_true (envOkWith "true") ccaTableMediaType 1 [] []
    (some "reference-values.json") true (by rfl)

/-- Claim C6 (amended): once claims are obtained, the media type is resolved
against the static policy binding table, failing with `PolicyNotFound` for
an unregistered media type; when the media type is registered and no
reference values were supplied, `emit_no_reference_values` is invoked and
the policy engine is never called, and the operation then fails with
`NoReferenceValues` when the diagnostics call succeeds (if the diagnostics
call itself fails, its error is propagated instead). -/
theorem verify_policy_lookup_and_missing_reference_values
    (env : VerifyEnv) (media_type : String) (challenge_id : Nat)
    (challenge evidence : List Nat)
    (api : VerificationApi) (rel session_url ear_string ear_claims : String) (ear : Ear)
    (h1 : env.discoveryBuild = .ok ())
    (h2 : env.getVerificationApi = .ok api)
    (h3 : api.apiEndpoint "newChallengeResponseSession" = some rel)
    (h4 : env.crBuild = .ok ())
    (h5 : env.newSession challenge = .ok session_url)
    (h6 : env.challengeResponse evidence media_type session_url = .ok ear_string)
    (h7 : env.earFromJwt ear_string api.earVerificationKey = .ok ear)
    (h8 : env.earClaimsJson ear = .ok ear_claims) :
    (lookupPolicy media_type = none →
      ∀ rv, verify_with_veraison_instance env media_type challenge_id challenge evidence rv
        = (.error (.Verification .PolicyNotFound), [])) ∧
    (∀ policy policy_rule, lookupPolicy media_type = some (policy, policy_rule) →
      (verify_with_veraison_instance env media_type challenge_id challenge evidence none).snd
        = [VEvent.diagInvoked] ∧
      (env.emitNoReferenceValues challenge_id ear = .ok () →
        (verify_with_veraison_instance env media_type challenge_id challenge evidence none).fst
          = .error (.Verification .NoReferenceValues)) ∧
      (∀ err, env.emitNoReferenceValues challenge_id ear = .error err →
        (verify_with_veraison_instance env media_type challenge_id challenge evidence none).fst
          = .error err)) := by
  refine ⟨?_, ?_⟩
  · intro hlook rv
    simp [verify_with_veraison_instance, h1, h2, h3, h4, h5, h6, h7, h8, hlook]
  · intro policy policy_rule hlook
    refine ⟨?_, ?_, ?_⟩
    · cases hemit : env.emitNoReferenceValues challenge_id ear with
      | error err =>
        simp [verify_with_veraison_instance, h1, h2, h3, h4, h5, h6, h7, h8, hlook, hemit]
      | ok u =>
        simp [verify_with_veraison_instance, h1, h2, h3, h4, h5, h6, h7, h8, hlook, hemit]
    · intro hemit
      simp [verify_with_veraison_instance, h1, h2, h3, h4, h5, h6, h7, h8, hlook, hemit]
    · intro err hemit
      simp [verify_with_veraison_instance, h1, h2, h3, h4, h5, h6, h7, h8, hlook, hemit]

/-- Environment whose diagnostics collaborator itself fails (the CCA
implementation returns an error when the EAR has no CCA_REALM submodule). -/
def envDiagErr : VerifyEnv :=
  { envOkWith "true" with
    emitNoReferenceValues := fun _ _ =>
      .error (.Verification (.EARCCAError "No CCA_REALM in the ear")) }

/-- Counterexample to claim C6 as stated: with a registered media type and no
reference values, the diagnostics collaborator is invoked, but when that
call itself fails the operation fails with the diagnostics error, not with
`NoReferenceValues`. -/
theorem verify_missing_refvals_claim_counterexample :
    (verify_with_veraison_instance envDiagErr ccaTableMediaType 1 [] [] none).snd
      = [VEvent.diagInvoked] ∧
    (verify_with_veraison_instance envDiagErr ccaTableMediaType 1 [] [] none).fst
      = .error (.Verification (.EARCCAError "No CCA_REALM in the ear")) ∧
    (Error.Verification (.EARCCAError "No CCA_REALM in the ear"))
      ≠ (Error.Verification .NoReferenceValues) := by
  refine ⟨by rfl, by rfl, by decide⟩

/-- Witness for the amended claim C6 at a concrete input. -/
theorem verify_policy_lookup_and_missing_reference_values_witness :
    (lookupPolicy "text/plain" = none →
      ∀ rv, verify_with_veraison_instance (envOkWith "true") "text/plain" 1 [] [] rv
        = (.error (.Verification .PolicyNotFound), [])) ∧
    (∀ policy policy_rule, lookupPolicy "text/plain" = some (policy, policy_rule) →
      (verify_with_veraison_instance (envOkWith "true") "text/plain" 1 [] [] none).snd
        = [VEvent.diagInvoked] ∧
      ((envOkWith "true").emitNoReferenceValues 1
          { profile := "tag:github.com,2023:veraison/ear", submods := [] } = .ok () →
        (verify_with_veraison_instance (envOkWith "true") "text/plain" 1 [] [] none).fst
          = .error (.Verification .NoReferenceValues)) ∧
      (∀ err, (envOkWith "true").emitNoReferenceValues 1
          { profile := "tag:github.com,2023:veraison/ear", submods := [] } = .error err →
        (verify_with_veraison_instance (envOkWith "true") "text/plain" 1 [] [] none).fst
          = .error err)) :=
  verify_policy_lookup_and_missing_reference_values (envOkWith "true") "text/plain" 1 [] []
    { apiEndpoint := fun name =>
        if name = "newChallengeResponseSession" then some "/newSession" else none
      earVerificationKey := "key" }
    "/newSession" "http://veraison.example/session/1" "ear-jwt" "claims-json"
    { profile := "tag:github.com,2023:veraison/ear", submods := [] }
    (by rfl) (by rfl) (by rfl) (by rfl) (by rfl) (by rfl) (by rfl) (by rfl)

/-! ## Orchestrator request handlers (keybroker-server/src/main.rs) -/

/-- HTTP responses produced by the two handlers; `panic` stands for a Rust
`unwrap()` aborting the request instead of producing a response. -/
inductive HttpResponse where
  | created (location : String) (body : AttestationChallenge)
  | okJson (body : WrappedKeyData)
  | forbidden (body : ErrorInformation)
  | panic
deriving DecidableEq, Repr

/-- The evidence media type advertised in the accept list of every
challenge-creation response of `request_key` (profile URI unquoted, exactly
as in main.rs). -/
def advertisedAcceptMediaType : String :=
  "application/eat-collection; profile=http://arm.com/CCA-SSD/1.0.0"

/-- Key-request handler: create a challenge, respond `201 Created` with the
base64url nonce, the hardcoded accept list, and the evidence-submission URL. -/
def request_key (t : ChallengeTable) (key_id : String) (pubkey : PublicWrappingKey)
    (mock_challenge : Bool) (endpoint : String) (idCands : List Nat) (rngByte : Nat → Nat) :
    Option (ChallengeTable × HttpResponse) :=
  match Challenger.create_challenge t key_id pubkey mock_challenge idCands rngByte with
  | none => none
  | some (challenge, t2) =>
    let attestation_challenge : AttestationChallenge :=
      { challenge := b64UrlNoPadEncode challenge.challenge_value
        accept := [advertisedAcceptMediaType] }
    let location := endpoint ++ "/keys/v1/evidence/" ++ toString challenge.challenge_id
    some (t2, .created location attestation_challenge)

/-- Claim C7: every challenge-creation response advertises exactly the
unquoted-profile media type string, but that string is not a key of the
policy binding table (whose only key quotes the profile URI), so evidence
submitted with exactly the advertised string as its media type fails policy
resolution with `PolicyNotFound` instead of resolving to a policy. -/
theorem advertised_accept_media_type_not_in_policy_table
    (t : ChallengeTable) (key_id : String) (pubkey : PublicWrappingKey) (mock : Bool)
    (endpoint : String) (cands : List Nat) (rngByte : Nat → Nat)
    (t2 : ChallengeTable) (location : String) (body : AttestationChallenge)
    (h : request_key t key_id pubkey mock endpoint cands rngByte
          = some (t2, .created location body)) :
    body.accept = [advertisedAcceptMediaType] ∧
    lookupPolicy advertisedAcceptMediaType = none ∧
    advertisedAcceptMediaType ∉ MEDIATYPES_TO_POLICY.map Prod.fst ∧
    (verify_with_veraison_instance (envOkWith "true") advertisedAcceptMediaType 1 [] []
        (some "reference-values.json")).fst = .error (.Verification .PolicyNotFound) := by
  rw [request_key] at h
  split at h
  · cases h
  · cases h
    exact ⟨rfl, by decide, by decide, by rfl⟩

/-- Body of the C7 witness response. -/
def c7Body : AttestationChallenge :=
  { challenge := b64UrlNoPadEncode ccaExampleTokenNonce
    accept := [advertisedAcceptMediaType] }

/-- Witness for claim C7 at a concrete input. -/
theorem advertised_accept_media_type_not_in_policy_table_witness :
    c7Body.accept = [advertisedAcceptMediaType] ∧
    lookupPolicy advertisedAcceptMediaType = none ∧
    advertisedAcceptMediaType ∉ MEDIATYPES_TO_POLICY.map Prod.fst ∧
    (verify_with_veraison_instance (envOkWith "true") advertisedAcceptMediaType 1 [] []
        (some "reference-values.json")).fst = .error (.Verification .PolicyNotFound) :=
  advertised_accept_media_type_not_in_policy_table [] "skywalker" wkDemo true
    "http://127.0.0.1:8088" [5] (fun _ => 0) [(5, c3Challenge)]
    ("http://127.0.0.1:8088" ++ "/keys/v1/evidence/" ++ toString (5 : Nat)) c7Body (by rfl)

/-- Observable actions of the evidence-submission handler, in order. -/
inductive SEvent where
  | deletedChallenge (id : Nat)
  | verificationStarted
deriving DecidableEq, Repr

/-- Evidence-submission handler: look up the challenge (403 on unknown id),
delete it, base64url-decode the evidence (an `unwrap` panic on bad input),
run remote verification (its outcome is the parameter `verifyOutcome`, the
awaited result of the spawned blocking task), and on a positive verdict wrap
the requested key (an `unwrap` panic if wrapping fails). -/
def submit_evidence (t : ChallengeTable) (challenge_id : Nat)
    (evidence_base64 : String)
    (verifyOutcome : Except Error Bool)
    (wrap : String → PublicWrappingKey → Except Error WrappedKeyData) :
    ChallengeTable × HttpResponse × List SEvent :=
  match (Challenger.get_challenge t challenge_id).snd with
  | .error _ =>
      (t, .forbidden { type := "AttestationFailure"
                       detail := "The challenge identifier did not match any issued challenge." },
       [])
  | .ok challenge =>
    match Challenger.delete_challenge t challenge_id with
    | .error _ => (t, .panic, [])
    | .ok t2 =>
      match b64UrlNoPadDecode evidence_base64 with
      | none => (t2, .panic, [.deletedChallenge challenge_id])
      | some _evidence_bytes =>
        match verifyOutcome with
        | .ok true =>
          match wrap challenge.key_id challenge.wrapping_key with
          | .ok wrapped_key =>
              (t2, .okJson wrapped_key,
               [.deletedChallenge challenge_id, .verificationStarted])
          | .error _ =>
              (t2, .panic, [.deletedChallenge challenge_id, .verificationStarted])
        | .ok false =>
          (t2, .forbidden { type := "AttestationFailure"
                            detail := "The attestation result is not in policy." },
           [.deletedChallenge challenge_id, .verificationStarted])
        | .error _ =>
          (t2, .forbidden { type := "AttestationFailure"
                            detail := "No attestation result was obtained." },
           [.deletedChallenge challenge_id, .verificationStarted])

/-- Claim C1: on every redemption attempt against a live challenge id the
handler deletes that challenge from the table first, before remote
verification begins, and exactly once; this holds for every verification
outcome (success, failed verdict, or error), so afterwards the id is no
longer live. -/
theorem submit_evidence_consumes_challenge_before_verification
    (t : ChallengeTable) (id : Nat) (c : Challenge)
    (hlive : tableGet t id = some c)
    (evidence_base64 : String) (verifyOutcome : Except Error Bool)
    (wrap : String → PublicWrappingKey → Except Error WrappedKeyData) :
    (submit_evidence t id evidence_base64 verifyOutcome wrap).fst = tableRemove t id ∧
    (∃ rest, (submit_evidence t id evidence_base64 verifyOutcome wrap).snd.snd
        = .deletedChallenge id :: rest ∧ ∀ j, SEvent.deletedChallenge j ∉ rest) ∧
    tableGet (submit_evidence t id evidence_base64 verifyOutcome wrap).fst id = none := by
  have hget : (Challenger.get_challenge t id).snd = .ok c := by
    simp [Challenger.get_challenge, hlive]
  have hdel : Challenger.delete_challenge t id = .ok (tableRemove t id) := by
    simp [Challenger.delete_challenge, hlive]
  cases hdec : b64UrlNoPadDecode evidence_base64 with
  | none =>
    refine ⟨?_, ⟨[], ?_, by simp⟩, ?_⟩ <;>
      simp [submit_evidence, hget, hdel, hdec, tableGet_tableRemove_self]
  | some ev =>
    cases verifyOutcome with
    | error err =>
      refine ⟨?_, ⟨[.verificationStarted], ?_, by simp⟩, ?_⟩ <;>
        simp [submit_evidence, hget, hdel, hdec, tableGet_tableRemove_self]
    | ok verified =>
      cases verified with
      | false =>
        refine ⟨?_, ⟨[.verificationStarted], ?_, by simp⟩, ?_⟩ <;>
          simp [submit_evidence, hget, hdel, hdec, tableGet_tableRemove_self]
      | true =>
        cases hwrap : wrap c.key_id c.wrapping_key with
        | ok w =>
          refine ⟨?_, ⟨[.verificationStarted], ?_, by simp⟩, ?_⟩ <;>
            simp [submit_evidence, hget, hdel, hdec, hwrap, tableGet_tableRemove_self]
        | error err =>
          refine ⟨?_, ⟨[.verificationStarted], ?_, by simp⟩, ?_⟩ <;>
            simp [submit_evidence, hget, hdel, hdec, hwrap, tableGet_tableRemove_self]

/-- Witness for claim C1 at a concrete input whose verification errors out. -/
theorem submit_evidence_consumes_challenge_before_verification_witness :
    (submit_evidence [(5, c3Challenge)] 5 "" (.error (.VeraisonApi "timeout"))
        (fun _ _ => .error (.KeyStore .KeyNotFound))).fst
      = tableRemove [(5, c3Challenge)] 5 ∧
    (∃ rest, (submit_evidence [(5, c3Challenge)] 5 "" (.error (.VeraisonApi "timeout"))
        (fun _ _ => .error (.KeyStore .KeyNotFound))).snd.snd
        = .deletedChallenge 5 :: rest ∧ ∀ j, SEvent.deletedChallenge j ∉ rest) ∧
    tableGet (submit_evidence [(5, c3Challenge)] 5 "" (.error (.VeraisonApi "timeout"))
        (fun _ _ => .error (.KeyStore .KeyNotFound))).fst 5 = none :=
  submit_evidence_consumes_challenge_before_verification [(5, c3Challenge)] 5 c3Challenge
    (by rfl) "" (.error (.VeraisonApi "timeout")) (fun _ _ => .error (.KeyStore .KeyNotFound))

/-- The key store as populated at server startup in main.rs: the single
secret "May the force be with you." under the id "skywalker". -/
def serverKeyStore : KeyStore :=
  KeyStore.store_key ⟨[]⟩ "skywalker" ("May the force be with you.".data.map Char.toNat)

/-- A live challenge whose requested key id is not in the key store;
main.rs creates challenges for unknown key ids without rejecting them. -/
def vaderChallenge : Challenge :=
  { challenge_id := 7, key_id := "vader", wrapping_key := wkDemo,
    challenge_value := ccaExampleTokenNonce }

/-- Claim C2 failing input: a redemption of a live challenge for an
unregistered key id under a positive verification verdict makes the handler
abort via `unwrap` on the failed `wrap_key` call (a panic, surfaced as a 500
by the framework) instead of returning the uniform 403 AttestationFailure
response that the claim requires for every internal failure. -/
theorem submit_evidence_aborts_on_wrap_failure :
    submit_evidence [(7, vaderChallenge)] 7 "" (.ok true)
        (fun k wk => (KeyStore.wrap_key ctxDemo serverKeyStore k wk).fst)
      = ([], .panic, [.deletedChallenge 7, .verificationStarted]) ∧
    (HttpResponse.panic ≠ .forbidden { type := "AttestationFailure"
                                       detail := "No attestation result was obtained." }) :=
  ⟨by rfl, by decide⟩
